import Mathlib

/- Verification of the query-cache engine in src/data-fetching.ts
   (class QueryClient and its helpers). The definitions below are a
   shallow embedding of that file: TypeScript values that may be
   `undefined`/`null` become `Option`, timestamps become `Nat`,
   promises that settle become `Except` results, and the mutable
   per-key cache becomes an association list threaded through each
   operation. Real-time behaviour (setTimeout delays, LRU recency,
   TTL expiry) is abstracted away; the logic of every state write is
   translated verbatim from the source. -/

namespace NitroQuery

/-- A JavaScript `Error` value, carrying the `name` field that
`fetchQuery` inspects to recognise aborts. -/
structure JsError where
  name : String
  message : String
deriving DecidableEq, Repr

/-- The check `error instanceof Error && error.name === "AbortError"` from
the catch branch of `fetchQuery`. -/
def isAbortError (e : JsError) : Bool :=
  e.name = "AbortError"

/-- `QueryStatus` from the source: `'pending' | 'error' | 'success'`. -/
inductive QueryStatus where
  | pending
  | error
  | success
deriving DecidableEq, Repr

/-- `FetchStatus` from the source: `'fetching' | 'paused' | 'idle'`. -/
inductive FetchStatus where
  | fetching
  | paused
  | idle
deriving DecidableEq, Repr

/-- `QueryState` from the source. `data : TData | undefined` becomes
`Option TData`; `error : TError | null` becomes `Option JsError`. -/
structure QueryState (TData : Type) where
  data : Option TData
  dataUpdatedAt : Nat
  error : Option JsError
  errorUpdatedAt : Nat
  failureCount : Nat
  failureReason : Option JsError
  fetchStatus : FetchStatus
  isInvalidated : Bool
  status : QueryStatus
deriving DecidableEq, Repr

/-- The fresh state that `getQueryEntry` installs for a missing key. -/
def initialState (TData : Type) : QueryState TData :=
  { data := none
    dataUpdatedAt := 0
    error := none
    errorUpdatedAt := 0
    failureCount := 0
    failureReason := none
    fetchStatus := .idle
    isInvalidated := false
    status := .pending }

/-- Retry option: `number | boolean | ((failureCount, error) => boolean)`. -/
inductive RetryPolicy where
  | bool (b : Bool)
  | num (n : Nat)
  | pred (f : Nat → JsError → Bool)

/-- The `shouldRetry` expression inside `executeWithRetry`:
a predicate is applied to `(attempt, error)`; a boolean retries while
`attempt < 3`; a number retries while `attempt < retry`. -/
def shouldRetry (retry : RetryPolicy) (attempt : Nat) (e : JsError) : Bool :=
  match retry with
  | .pred f => f attempt e
  | .bool b => b && decide (attempt < 3)
  | .num n => decide (attempt < n)

/-- `QueryClient.executeWithRetry`: calls `fn` (modelled as a map from
invocation index to its settled result), and on rejection rethrows at
once when the abort signal is aborted, retries while the policy allows,
and rethrows otherwise. Returns the final result together with the
number of invocations of `fn`. `fuel` bounds the number of retries the
model can take (the source loop is unbounded); with fuel at least the
retries demanded by the policy the model is exact. Backoff delays are
awaited in the source and have no effect on the result, so they are not
modelled. -/
def executeWithRetry (fn : Nat → Except JsError TData) (retry : RetryPolicy)
    (aborted : Bool) : Nat → Nat → Except JsError TData × Nat
  | fuel, attempt =>
    match fn attempt with
    | .ok d => (.ok d, 1)
    | .error e =>
      if aborted then (.error e, 1)
      else if shouldRetry retry attempt e then
        match fuel with
        | 0 => (.error e, 1)
        | f + 1 =>
          let r := executeWithRetry fn retry aborted f (attempt + 1)
          (r.1, r.2 + 1)
      else (.error e, 1)

/-- The success write of `fetchQuery` (spread of the previous state with
data, timestamps and counters reset, status success). -/
def successState (st : QueryState TData) (d : TData) (now : Nat) : QueryState TData :=
  { st with
    data := some d
    dataUpdatedAt := now
    error := none
    errorUpdatedAt := 0
    failureCount := 0
    failureReason := none
    fetchStatus := .idle
    status := .success }

/-- The failure write of `fetchQuery` (spread of the previous state with
the error recorded, failure count bumped, status error). -/
def errorState (st : QueryState TData) (e : JsError) (now : Nat) : QueryState TData :=
  { st with
    error := some e
    errorUpdatedAt := now
    failureCount := st.failureCount + 1
    failureReason := some e
    fetchStatus := .idle
    status := .error }

/-- Everything observable about one `fetchQuery` call on an entry:
the entry state after the call settles, the value the returned promise
settles with (`.ok` carries `Option TData` because the AbortError
branch returns the possibly-undefined previous `entry.state.data`),
which callbacks were scheduled via `defer`, and how many times the
query function ran. -/
structure FetchOutcome (TData : Type) where
  state : QueryState TData
  result : Except JsError (Option TData)
  onSuccessFired : Option TData
  onErrorFired : Option JsError
  onSettledFired : Bool
  invocations : Nat
deriving Repr

/-- `QueryClient.fetchQuery` acting on a single entry state. The call
first sets `fetchStatus = 'fetching'` in place, then awaits
`executeWithRetry` with `options.retry ?? 3`; on success it writes
`successState` and schedules `onSuccess`; on an `AbortError` rejection
it leaves the entry state as it stood (in particular the in-place
`fetching` mark) and returns the previous data without scheduling
`onSuccess`/`onError`; on any other rejection it writes `errorState`,
schedules `onError` and rethrows. `onSettled` is scheduled in the
`finally` block on every path. `aborted` is whether this attempt's
abort signal has been aborted by the time rejections are inspected. -/
def fetchQuery (st : QueryState TData) (fn : Nat → Except JsError TData)
    (retry : Option RetryPolicy) (aborted : Bool) (fuel now : Nat) :
    FetchOutcome TData :=
  let during : QueryState TData := { st with fetchStatus := .fetching }
  match executeWithRetry fn (retry.getD (.num 3)) aborted fuel 0 with
  | (.ok d, k) =>
    { state := successState during d now
      result := .ok (some d)
      onSuccessFired := some d
      onErrorFired := none
      onSettledFired := true
      invocations := k }
  | (.error e, k) =>
    if isAbortError e then
      { state := during
        result := .ok during.data
        onSuccessFired := none
        onErrorFired := none
        onSettledFired := true
        invocations := k }
    else
      { state := errorState during e now
        result := .error e
        onSuccessFired := none
        onErrorFired := some e
        onSettledFired := true
        invocations := k }

/-- `QueryClient.getQueryKey`: `JSON.stringify(queryKey)`. Keys are
modelled as arrays of strings; the serialization mirrors the JSON form
of such an array (element order preserved), which is what makes
structural equality of keys coincide with equality of the serialized
form, and makes a key and a strict extension of it serialize
differently. -/
def getQueryKey (k : List String) : String :=
  "[" ++ String.intercalate "," (k.map (fun s => "\"" ++ s ++ "\"")) ++ "]"

/-- A cache entry: the entry state plus the size of its observer set.
The promise, abort-controller and timer handles of the source entry are
represented by the explicit parameters of the operations that use
them. -/
structure QueryCacheEntry (TData : Type) where
  state : QueryState TData
  observerCount : Nat
deriving DecidableEq, Repr

/-- The `LRUCache<string, QueryCacheEntry>` as an association list from
serialized key to entry. LRU recency reordering, capacity eviction and
TTL expiry are real-time/capacity behaviours outside this model. -/
abbrev Cache (TData : Type) := List (String × QueryCacheEntry TData)

/-- `cache.get(key)`. -/
def cacheGet : Cache TData → String → Option (QueryCacheEntry TData)
  | [], _ => none
  | p :: rest, k => if p.1 = k then some p.2 else cacheGet rest k

/-- `cache.set(key, entry)`: replaces the entry stored at the key, or
appends a binding for a missing key. -/
def cacheSet : Cache TData → String → QueryCacheEntry TData → Cache TData
  | [], k, e => [(k, e)]
  | p :: rest, k, e => if p.1 = k then (k, e) :: rest else p :: cacheSet rest k e

/-- The entry `getQueryEntry` installs for a missing key: fresh state,
empty observer set. -/
def emptyEntry (TData : Type) : QueryCacheEntry TData :=
  { state := initialState TData, observerCount := 0 }

/-- `QueryClient.getQueryEntry`: returns the entry stored under the
serialized key, creating and storing a fresh one when absent. Returns
the entry together with the (possibly extended) cache. -/
def getQueryEntry (c : Cache TData) (key : List String) :
    QueryCacheEntry TData × Cache TData :=
  match cacheGet c (getQueryKey key) with
  | some e => (e, c)
  | none => (emptyEntry TData, cacheSet c (getQueryKey key) (emptyEntry TData))

/-- `QueryClient.fetchQuery` at cache level: get-or-create the entry,
run the fetch against its state, store the settled state back. The
second component is the cache after the call; the query-function
invocation count is in the outcome. -/
def fetchQueryOp (c : Cache TData) (key : List String)
    (fn : Nat → Except JsError TData) (retry : Option RetryPolicy)
    (aborted : Bool) (fuel now : Nat) : FetchOutcome TData × Cache TData :=
  let g := getQueryEntry c key
  let o := fetchQuery g.1.state fn retry aborted fuel now
  (o, cacheSet g.2 (getQueryKey key) { g.1 with state := o.state })

/-- The state write of `QueryClient.setQueryData`: spread of the
previous state with `data`, `dataUpdatedAt` and `status = 'success'`.
No other field of the state is written. -/
def setQueryDataState (st : QueryState TData) (d : TData) (now : Nat) :
    QueryState TData :=
  { st with data := some d, dataUpdatedAt := now, status := .success }

/-- `QueryClient.setQueryData`: get-or-create the entry, overwrite its
state with `setQueryDataState`, notify observers. The second component
counts query-function invocations performed by the operation; the
source body contains no call to the query function, hence 0. -/
def setQueryDataOp (c : Cache TData) (key : List String) (d : TData)
    (now : Nat) : Cache TData × Nat :=
  let g := getQueryEntry c key
  (cacheSet g.2 (getQueryKey key) { g.1 with state := setQueryDataState g.1.state d now }, 0)

/-- `QueryClient.getQueryData`: `this.cache.get(serializedKey)?.state.data`.
The cache is returned unchanged (the source body performs no `set` or
`delete`); the last component counts query-function invocations, of
which the source performs none. -/
def getQueryDataOp (c : Cache TData) (key : List String) :
    Option TData × Cache TData × Nat :=
  ((cacheGet c (getQueryKey key)).bind (fun e => e.state.data), c, 0)

/-- `QueryClient.invalidateQueries`: with a key, looks up exactly that
serialized key and, when present, sets `isInvalidated = true` on that
entry and notifies its observers; with no key, flags every entry. The
second component counts query-function invocations/fetches started by
the operation; the source body contains no fetch call, hence 0. -/
def invalidateQueriesOp (c : Cache TData) (key : Option (List String)) :
    Cache TData × Nat :=
  match key with
  | some k =>
    match cacheGet c (getQueryKey k) with
    | some e =>
      (cacheSet c (getQueryKey k) { e with state := { e.state with isInvalidated := true } }, 0)
    | none => (c, 0)
  | none =>
    (c.map (fun p => (p.1, { p.2 with state := { p.2.state with isInvalidated := true } })), 0)

/-- Everything observable about one `subscribeToQuery` call: the cache
afterwards, whether the subscription triggered a fetch, the settled
value of that un-awaited, un-handled `this.fetchQuery(options)` call
(an `.error` here is a promise rejection with no attached handler),
and how many times the query function ran. -/
structure SubscribeOutcome (TData : Type) where
  cache : Cache TData
  fetchTriggered : Bool
  escaped : Option (Except JsError (Option TData))
  queryFnCalls : Nat

/-- `QueryClient.subscribeToQuery`: get-or-create the entry, add the
observer, and when `options.enabled !== false` and the entry status is
`'pending'`, call `this.fetchQuery(options)` without awaiting it and
without attaching any rejection handler. -/
def subscribeToQueryOp (c : Cache TData) (key : List String)
    (enabled : Option Bool) (fn : Nat → Except JsError TData)
    (retry : Option RetryPolicy) (fuel now : Nat) : SubscribeOutcome TData :=
  let g := getQueryEntry c key
  let e1 : QueryCacheEntry TData := { g.1 with observerCount := g.1.observerCount + 1 }
  let c2 := cacheSet g.2 (getQueryKey key) e1
  if enabled ≠ some false ∧ e1.state.status = .pending then
    let o := fetchQuery e1.state fn retry false fuel now
    { cache := cacheSet c2 (getQueryKey key) { e1 with state := o.state }
      fetchTriggered := true
      escaped := some o.result
      queryFnCalls := o.invocations }
  else
    { cache := c2, fetchTriggered := false, escaped := none, queryFnCalls := 0 }

/-- The derived flags of `QueryClient.buildQueryResult` (the `select`
transform, `isStale` and `refetch` closure of the result are orthogonal
to the flags and not part of this record). -/
structure DerivedFlags where
  isLoading : Bool
  isPending : Bool
  isSuccess : Bool
  isError : Bool
  isFetching : Bool
  isRefetching : Bool
deriving DecidableEq, Repr

/-- The flag computations of `QueryClient.buildQueryResult`, verbatim:
`isLoading = (status === 'pending' && fetchStatus === 'fetching')`,
`isFetching = (fetchStatus === 'fetching')`,
`isRefetching = isFetching && !isLoading`, and the three status
projections. -/
def buildQueryResultFlags (status : QueryStatus) (fetchStatus : FetchStatus) :
    DerivedFlags :=
  let isLoading := decide (status = .pending) && decide (fetchStatus = .fetching)
  let isFetching := decide (fetchStatus = .fetching)
  { isLoading := isLoading
    isPending := decide (status = .pending)
    isSuccess := decide (status = .success)
    isError := decide (status = .error)
    isFetching := isFetching
    isRefetching := isFetching && !isLoading }

/- Interleaving model for concurrent fetches on one entry. A trace
event is either the synchronous front half of a `fetchQuery` call
(abort the previous attempt's controller, install a new one, mark the
entry `fetching`) or the resumption of an awaiting call when its
`executeWithRetry` settles. The settle step applies the source's
success/error writes to the entry state as it stands at settle time;
crucially, mirroring the source, it does not compare the attempt's
identity or abort controller with the entry's current one — only the
rejection's `AbortError` name is consulted. -/

/-- One scheduler event for a single entry. -/
inductive FetchEvent (TData : Type) where
  | start (id : Nat)
  | complete (id : Nat) (res : Except JsError TData) (now : Nat)
deriving Repr

/-- The entry as seen by interleaved `fetchQuery` calls: its state and
the id of the attempt owning the current abort controller. -/
structure FlightState (TData : Type) where
  state : QueryState TData
  currentId : Option Nat
deriving Repr

/-- Entry evolution under one event. `start` is lines 291–297 of the
source (abort previous controller, new controller, mark fetching);
`complete` is the settle code (success write, AbortError early return
preserving state, error write). The attempt id carried by `complete`
is not consulted, because the source settle code consults nothing but
the rejection's name. -/
def stepEvent (fs : FlightState TData) (ev : FetchEvent TData) : FlightState TData :=
  match ev with
  | .start id =>
    { state := { fs.state with fetchStatus := .fetching }, currentId := some id }
  | .complete _ res now =>
    match res with
    | .ok d => { fs with state := successState fs.state d now }
    | .error e =>
      if isAbortError e then fs
      else { fs with state := errorState fs.state e now }

/-- Run a list of events over an entry. -/
def runTrace (fs : FlightState TData) : List (FetchEvent TData) → FlightState TData
  | [] => fs
  | ev :: rest => runTrace (stepEvent fs ev) rest

/-- The entry-state invariant claimed by the spec:
success implies data defined and error null; error implies error
defined. -/
def stateInvariant (st : QueryState TData) : Prop :=
  (st.status = .success → st.data.isSome ∧ st.error = none)
  ∧ (st.status = .error → st.error.isSome)

instance (st : QueryState TData) [DecidableEq TData] : Decidable (stateInvariant st) := by
  unfold stateInvariant
  infer_instance

/-- Reading back the key just written returns the written entry. -/
theorem cacheGet_cacheSet_self (c : Cache TData) (k : String)
    (e : QueryCacheEntry TData) : cacheGet (cacheSet c k e) k = some e := by
  induction c with
  | nil => simp [cacheSet, cacheGet]
  | cons p rest ih =>
    by_cases h : p.1 = k
    · simp [cacheSet, cacheGet, h]
    · simp [cacheSet, cacheGet, h, ih]

/-- Writing one key leaves every other key's binding unchanged. -/
theorem cacheGet_cacheSet_ne (c : Cache TData) (k k' : String)
    (e : QueryCacheEntry TData) (h : k' ≠ k) :
    cacheGet (cacheSet c k e) k' = cacheGet c k' := by
  have hk : ¬(k = k') := fun hh => h hh.symm
  induction c with
  | nil => simp [cacheSet, cacheGet, hk]
  | cons p rest ih =>
    by_cases hp : p.1 = k
    · subst hp
      simp [cacheSet, cacheGet, hk]
    · simp [cacheSet, cacheGet, hp, ih]

/-- An always-rejecting query function makes `executeWithRetry` return
one of its rejections, whatever the policy, signal and fuel. -/
theorem executeWithRetry_fail (fn : Nat → Except JsError TData)
    (errs : Nat → JsError) (hfn : ∀ i, fn i = .error (errs i))
    (retry : RetryPolicy) (ab : Bool) :
    ∀ fuel a, ∃ j k,
      executeWithRetry fn retry ab fuel a = (.error (errs j), k) := by
  intro fuel
  induction fuel with
  | zero =>
    intro a
    refine ⟨a, 1, ?_⟩
    rw [executeWithRetry, hfn a]
    split <;> simp_all
  | succ f ih =>
    intro a
    by_cases hab : ab = true
    · subst hab
      refine ⟨a, 1, ?_⟩
      rw [executeWithRetry, hfn a]
      simp
    · have hab' : ab = false := by simpa using hab
      subst hab'
      by_cases hr : shouldRetry retry a (errs a) = true
      · obtain ⟨j, k, hjk⟩ := ih (a + 1)
        refine ⟨j, k + 1, ?_⟩
        rw [executeWithRetry, hfn a]
        simp [hr, hjk]
      · refine ⟨a, 1, ?_⟩
        rw [executeWithRetry, hfn a]
        simp [hr]

/-- With a numeric policy `retry = n`, no abort, and an always-rejecting
query function, `executeWithRetry` started at `attempt = a ≤ n` with at
least `n - a` fuel performs exactly `n - a + 1` invocations and rethrows
the rejection of the final attempt `n`. -/
theorem executeWithRetry_num_count (fn : Nat → Except JsError TData)
    (errs : Nat → JsError) (hfn : ∀ i, fn i = .error (errs i)) (n : Nat) :
    ∀ fuel a, a ≤ n → n - a ≤ fuel →
      executeWithRetry fn (.num n) false fuel a = (.error (errs n), n - a + 1) := by
  intro fuel
  induction fuel with
  | zero =>
    intro a ha hfuel
    have haeq : a = n := by omega
    subst haeq
    rw [executeWithRetry, hfn a]
    simp [shouldRetry]
  | succ f ih =>
    intro a ha hfuel
    rw [executeWithRetry, hfn a]
    by_cases hlt : a < n
    · have h1 : a + 1 ≤ n := hlt
      have h2 : n - (a + 1) ≤ f := by omega
      have hrec := ih (a + 1) h1 h2
      simp [shouldRetry, hlt, hrec]
      omega
    · have haeq : a = n := by omega
      subst haeq
      simp [shouldRetry]

/-- Claim C10: in every result built for an observer from an entry's
state, `isLoading` holds exactly when status is `pending` and
fetchStatus is `fetching`; `isRefetching` holds exactly when
`isFetching` holds and `isLoading` does not; hence the two are never
both true and their disjunction equals `isFetching`. -/
theorem c10_derived_flags_consistent :
    ∀ (s : QueryStatus) (fs : FetchStatus),
      ((buildQueryResultFlags s fs).isLoading = true
          ↔ (s = .pending ∧ fs = .fetching))
      ∧ ((buildQueryResultFlags s fs).isRefetching = true
          ↔ ((buildQueryResultFlags s fs).isFetching = true
              ∧ ¬((buildQueryResultFlags s fs).isLoading = true)))
      ∧ ¬((buildQueryResultFlags s fs).isLoading = true
          ∧ (buildQueryResultFlags s fs).isRefetching = true)
      ∧ (((buildQueryResultFlags s fs).isLoading
          || (buildQueryResultFlags s fs).isRefetching)
            = (buildQueryResultFlags s fs).isFetching) := by
  intro s fs
  cases s <;> cases fs <;> decide

/-- Claim C7: `setQueryData(key, X)` followed by `getQueryData(key)`
returns `X`, the entry's status is forced to `'success'`, and neither
operation invokes the query function. -/
theorem c7_setQueryData_then_getQueryData :
    ∀ (c : Cache String) (key : List String) (d : String) (now : Nat),
      (getQueryDataOp (setQueryDataOp c key d now).1 key).1 = some d
      ∧ (cacheGet (setQueryDataOp c key d now).1 (getQueryKey key)).map
          (fun e => e.state.status) = some .success
      ∧ (setQueryDataOp c key d now).2 = 0
      ∧ (getQueryDataOp (setQueryDataOp c key d now).1 key).2.2 = 0 := by
  intro c key d now
  refine ⟨?_, ?_, rfl, rfl⟩
  · simp [getQueryDataOp, setQueryDataOp, cacheGet_cacheSet_self, setQueryDataState]
  · simp [setQueryDataOp, cacheGet_cacheSet_self, setQueryDataState]

/-- Claim C9: `getQueryData` is read-only: it returns the cache exactly as
it was, invokes no query function, returns `none` for an absent key and
creates no entry — in contrast with `getQueryEntry` (the path used by
fetchQuery, setQueryData and subscribeToQuery), which installs a fresh
entry for a missing key. -/
theorem c9_getQueryData_readonly :
    ∀ (c : Cache String) (key : List String),
      (getQueryDataOp c key).2.1 = c
      ∧ (getQueryDataOp c key).2.2 = 0
      ∧ (cacheGet c (getQueryKey key) = none → (getQueryDataOp c key).1 = none)
      ∧ (cacheGet c (getQueryKey key) = none →
          cacheGet (getQueryEntry c key).2 (getQueryKey key)
            = some (emptyEntry String)) := by
  intro c key
  refine ⟨rfl, rfl, ?_, ?_⟩
  · intro h
    simp [getQueryDataOp, h]
  · intro h
    simp [getQueryEntry, h, cacheGet_cacheSet_self]

/-- Witness for C9 at the empty cache and key `["a"]`: the cache is
unchanged, the read returns `none`, and the get-or-create path would
have installed a fresh entry for that key. -/
theorem c9_getQueryData_readonly_witness :
    (getQueryDataOp ([] : Cache String) ["a"]).2.1 = []
    ∧ (getQueryDataOp ([] : Cache String) ["a"]).1 = none
    ∧ cacheGet (getQueryEntry ([] : Cache String) ["a"]).2 (getQueryKey ["a"])
        = some (emptyEntry String) :=
  ⟨(c9_getQueryData_readonly [] ["a"]).1,
   (c9_getQueryData_readonly [] ["a"]).2.2.1 rfl,
   (c9_getQueryData_readonly [] ["a"]).2.2.2 rfl⟩

/-- Claim C8, amended: the subscription path triggers a fetch exactly
when `enabled` is not `false` and the entry's status is `'pending'`
(the entry has never settled); status `'error'` does not qualify, so an
entry whose last fetch failed without any prior success is not
refetched on subscribe. -/
theorem c8_subscribe_fetch_iff_status_pending :
    ∀ (c : Cache String) (key : List String) (enabled : Option Bool)
      (fn : Nat → Except JsError String) (retry : Option RetryPolicy)
      (fuel now : Nat),
      ((subscribeToQueryOp c key enabled fn retry fuel now).fetchTriggered = true
        ↔ (enabled ≠ some false
            ∧ (getQueryEntry c key).1.state.status = .pending)) := by
  intro c key enabled fn retry fuel now
  by_cases h : enabled ≠ some false ∧ (getQueryEntry c key).1.state.status = .pending
  · simp [subscribeToQueryOp, h]
  · simp [subscribeToQueryOp, h]

/-- Claim C8 counterexample: an entry whose only fetch rejected, so it
has never successfully fetched (no data, dataUpdatedAt still 0, status
`'error'`); subscribing with `enabled` unset triggers no fetch, against
the claim that every never-successfully-fetched entry is fetched on
subscribe. -/
theorem c8_counterexample :
    ((cacheGet (fetchQueryOp ([] : Cache String) ["k"]
        (fun _ => .error ⟨"Error", "boom"⟩) (some (.num 0)) false 0 3).2
        (getQueryKey ["k"])).map
          (fun e => (e.state.status, e.state.data, e.state.dataUpdatedAt))
      = some (.error, none, 0))
    ∧ (subscribeToQueryOp (fetchQueryOp ([] : Cache String) ["k"]
        (fun _ => .error ⟨"Error", "boom"⟩) (some (.num 0)) false 0 3).2 ["k"]
        none (fun _ => .ok "v") none 3 5).fetchTriggered = false := by
  exact ⟨rfl, rfl⟩

/-- Claim C5: with numeric `retry = n`, no abort, and an always-rejecting
(non-abort) query function, `fetchQuery` invokes the function exactly
`n + 1` times before the entry's status becomes `'error'`; with `retry`
unset the `options.retry ?? 3` default gives exactly 4 invocations.
`retry = 2` is the instance `n = 2`, giving exactly 3 invocations. -/
theorem c5_retry_invocation_count :
    ∀ (st : QueryState String) (fn : Nat → Except JsError String)
      (errs : Nat → JsError) (n fuel now : Nat),
      (∀ i, fn i = .error (errs i)) →
      (∀ i, isAbortError (errs i) = false) →
      n ≤ fuel → 3 ≤ fuel →
      ((fetchQuery st fn (some (.num n)) false fuel now).invocations = n + 1
        ∧ (fetchQuery st fn (some (.num n)) false fuel now).state.status = .error
        ∧ (fetchQuery st fn none false fuel now).invocations = 4
        ∧ (fetchQuery st fn none false fuel now).state.status = .error) := by
  intro st fn errs n fuel now hfn habort hn h3
  have h1 := executeWithRetry_num_count fn errs hfn n fuel 0 (Nat.zero_le n) (by omega)
  have h2 := executeWithRetry_num_count fn errs hfn 3 fuel 0 (Nat.zero_le 3) (by omega)
  refine ⟨?_, ?_, ?_, ?_⟩ <;>
    simp [fetchQuery, h1, h2, habort, errorState]

/-- Witness for C5: `retry = 2` with an always-rejecting function gives
exactly 3 invocations, and the unset-retry default gives 4. -/
theorem c5_retry_invocation_count_witness :
    (fetchQuery (initialState String) (fun _ => .error ⟨"Error", "x"⟩)
        (some (.num 2)) false 3 0).invocations = 2 + 1
    ∧ (fetchQuery (initialState String) (fun _ => .error ⟨"Error", "x"⟩)
        none false 3 0).invocations = 4 :=
  ⟨(c5_retry_invocation_count (initialState String)
      (fun _ => .error ⟨"Error", "x"⟩) (fun _ => ⟨"Error", "x"⟩) 2 3 0
      (fun _ => rfl) (fun _ => rfl) (by omega) (by omega)).1,
   (c5_retry_invocation_count (initialState String)
      (fun _ => .error ⟨"Error", "x"⟩) (fun _ => ⟨"Error", "x"⟩) 2 3 0
      (fun _ => rfl) (fun _ => rfl) (by omega) (by omega)).2.2.1⟩

/-- Claim C6: a fetch attempt cancelled mid-flight (its abort signal
aborted and the query function rejecting with an `AbortError`) leaves
the entry's previous data, error, status and failureCount untouched,
never schedules `onSuccess` or `onError` for that attempt, and performs
exactly one invocation — the rejection short-circuits retries under
every retry policy rather than counting as a policy failure. -/
theorem c6_abort_preserves_state :
    ∀ (st : QueryState String) (fn : Nat → Except JsError String)
      (retry : Option RetryPolicy) (fuel now : Nat) (e : JsError),
      fn 0 = .error e → isAbortError e = true →
      ((fetchQuery st fn retry true fuel now).state.data = st.data
        ∧ (fetchQuery st fn retry true fuel now).state.error = st.error
        ∧ (fetchQuery st fn retry true fuel now).state.status = st.status
        ∧ (fetchQuery st fn retry true fuel now).state.failureCount
            = st.failureCount
        ∧ (fetchQuery st fn retry true fuel now).onSuccessFired = none
        ∧ (fetchQuery st fn retry true fuel now).onErrorFired = none
        ∧ (fetchQuery st fn retry true fuel now).invocations = 1) := by
  intro st fn retry fuel now e hfn habort
  have hexec : executeWithRetry fn (retry.getD (.num 3)) true fuel 0
      = (.error e, 1) := by
    rw [executeWithRetry, hfn]
    simp
  simp [fetchQuery, hexec, habort]

/-- Witness for C6: a concrete aborted attempt whose query function
rejects with an `AbortError`; no callbacks, one invocation. -/
theorem c6_abort_preserves_state_witness :
    (fetchQuery (initialState String)
        (fun _ => .error ⟨"AbortError", "c"⟩) none true 3 7).onSuccessFired = none
    ∧ (fetchQuery (initialState String)
        (fun _ => .error ⟨"AbortError", "c"⟩) none true 3 7).onErrorFired = none
    ∧ (fetchQuery (initialState String)
        (fun _ => .error ⟨"AbortError", "c"⟩) none true 3 7).invocations = 1 :=
  ⟨(c6_abort_preserves_state (initialState String)
      (fun _ => .error ⟨"AbortError", "c"⟩) none 3 7 ⟨"AbortError", "c"⟩
      rfl rfl).2.2.2.2.1,
   (c6_abort_preserves_state (initialState String)
      (fun _ => .error ⟨"AbortError", "c"⟩) none 3 7 ⟨"AbortError", "c"⟩
      rfl rfl).2.2.2.2.2.1,
   (c6_abort_preserves_state (initialState String)
      (fun _ => .error ⟨"AbortError", "c"⟩) none 3 7 ⟨"AbortError", "c"⟩
      rfl rfl).2.2.2.2.2.2⟩

/-- Claim C1 (violated by the code): two overlapping `fetchQuery` calls
for one key, with query functions that ignore the abort signal. Attempt
1 is issued, then attempt 2 supersedes it (aborting 1's controller);
attempt 2 resolves `"B"` first, then attempt 1's late success resolves
`"A"`. The settle code never consults the attempt's identity or abort
token, so the superseded attempt overwrites the state written by the
last-issued fetch: final data is `"A"`, while the latest-issued attempt
is 2. The third conjunct shows the cooperative variant — the superseded
attempt rejecting with `AbortError` — keeps `"B"`: the discard happens
only when the query function honours the signal. -/
theorem c1_superseded_late_success_overwrites :
    ((runTrace ⟨initialState String, none⟩
        [.start 1, .start 2, .complete 2 (.ok "B") 10,
         .complete 1 (.ok "A") 100]).state.data = some "A")
    ∧ ((runTrace ⟨initialState String, none⟩
        [.start 1, .start 2, .complete 2 (.ok "B") 10,
         .complete 1 (.ok "A") 100]).currentId = some 2)
    ∧ ((runTrace ⟨initialState String, none⟩
        [.start 1, .start 2, .complete 2 (.ok "B") 10,
         .complete 1 (.error ⟨"AbortError", "c"⟩) 100]).state.data = some "B") :=
  ⟨rfl, rfl, rfl⟩

/-- Claim C2 counterexample: a cache holding one entry, stored under the
serialized key `["posts","list"]`, with one active observer.
Invalidating `["posts"]` — a strict key prefix — leaves the entry's
`isInvalidated` flag `false`, because the lookup is by exact serialized
key; and invalidating either key issues zero fetches, not the claimed
exactly-one eager refetch. -/
theorem c2_counterexample :
    ((cacheGet (invalidateQueriesOp
        [(getQueryKey ["posts", "list"],
          { state := initialState String, observerCount := 1 })]
        (some ["posts"])).1 (getQueryKey ["posts", "list"])).map
          (fun e => e.state.isInvalidated) = some false)
    ∧ (invalidateQueriesOp
        [(getQueryKey ["posts", "list"],
          { state := initialState String, observerCount := 1 })]
        (some ["posts"])).2 = 0
    ∧ (invalidateQueriesOp
        [(getQueryKey ["posts", "list"],
          { state := initialState String, observerCount := 1 })]
        (some ["posts", "list"])).2 = 0 :=
  ⟨rfl, rfl, rfl⟩

/-- Claim C2, amended: `invalidateQueries(key)` flags only the entry
stored under exactly the given serialized key: that entry's
`isInvalidated` becomes `true` with its data unchanged, every
differently-serialized key (strict prefix keys included) keeps its
binding unchanged, and the operation issues no fetch regardless of
observers. -/
theorem c2_invalidate_exact_flag_no_fetch :
    ∀ (c : Cache String) (key other : List String),
      getQueryKey other ≠ getQueryKey key →
      ((invalidateQueriesOp c (some key)).2 = 0
        ∧ (cacheGet (invalidateQueriesOp c (some key)).1 (getQueryKey key)).map
            (fun e => (e.state.isInvalidated, e.state.data))
          = (cacheGet c (getQueryKey key)).map (fun e => (true, e.state.data))
        ∧ cacheGet (invalidateQueriesOp c (some key)).1 (getQueryKey other)
          = cacheGet c (getQueryKey other)) := by
  intro c key other hne
  cases hc : cacheGet c (getQueryKey key) with
  | none =>
    refine ⟨?_, ?_, ?_⟩ <;> simp [invalidateQueriesOp, hc]
  | some e =>
    refine ⟨?_, ?_, ?_⟩
    · simp [invalidateQueriesOp, hc]
    · simp [invalidateQueriesOp, hc, cacheGet_cacheSet_self]
    · simp [invalidateQueriesOp, hc, cacheGet_cacheSet_ne _ _ _ _ hne]

/-- Witness for the amended C2: invalidating `["posts","list"]` exactly
flags that entry without touching its data, leaves the differently
serialized key `["posts"]` alone, and issues zero fetches. -/
theorem c2_invalidate_exact_flag_no_fetch_witness :
    (invalidateQueriesOp
        [(getQueryKey ["posts", "list"],
          ({ state := initialState String, observerCount := 1 } :
            QueryCacheEntry String))] (some ["posts", "list"])).2 = 0
    ∧ (cacheGet (invalidateQueriesOp
        [(getQueryKey ["posts", "list"],
          ({ state := initialState String, observerCount := 1 } :
            QueryCacheEntry String))] (some ["posts", "list"])).1
        (getQueryKey ["posts", "list"])).map
          (fun e => (e.state.isInvalidated, e.state.data))
      = (cacheGet
          [(getQueryKey ["posts", "list"],
            ({ state := initialState String, observerCount := 1 } :
              QueryCacheEntry String))] (getQueryKey ["posts", "list"])).map
            (fun e => (true, e.state.data))
    ∧ cacheGet (invalidateQueriesOp
        [(getQueryKey ["posts", "list"],
          ({ state := initialState String, observerCount := 1 } :
            QueryCacheEntry String))] (some ["posts", "list"])).1
        (getQueryKey ["posts"])
      = cacheGet
          [(getQueryKey ["posts", "list"],
            ({ state := initialState String, observerCount := 1 } :
              QueryCacheEntry String))] (getQueryKey ["posts"]) := by
  have h := c2_invalidate_exact_flag_no_fetch
      [(getQueryKey ["posts", "list"],
        { state := initialState String, observerCount := 1 })]
      ["posts", "list"] ["posts"] (by decide)
  exact ⟨h.1, h.2.1, h.2.2⟩

/-- Claim C3 counterexample: a fetch triggered by `subscribeToQuery`
with an always-rejecting query function. The un-awaited
`this.fetchQuery(options)` call inside the subscription path settles as
a rejection with no handler attached, so the rejection escapes the
subscription path instead of never escaping outside direct `fetchQuery`
calls. -/
theorem c3_counterexample :
    (subscribeToQueryOp ([] : Cache String) ["k"] none
        (fun _ => .error ⟨"Error", "boom"⟩) (some (.num 0)) 1 5).escaped
      = some (.error ⟨"Error", "boom"⟩) :=
  rfl

/-- Claim C3, amended: on the subscription path every rejection is
folded into the entry's state (status becomes `'error'`), but
`fetchQuery` rethrows and `subscribeToQuery` attaches no rejection
handler to the fetch it triggers, so the same rejection also escapes
the subscription path as an unhandled promise rejection. -/
theorem c3_rejection_folded_but_escapes :
    ∀ (c : Cache String) (key : List String)
      (fn : Nat → Except JsError String) (errs : Nat → JsError)
      (retry : Option RetryPolicy) (fuel now : Nat),
      (∀ i, fn i = .error (errs i)) →
      (∀ i, isAbortError (errs i) = false) →
      cacheGet c (getQueryKey key) = none →
      ((subscribeToQueryOp c key none fn retry fuel now).fetchTriggered = true
        ∧ ((cacheGet (subscribeToQueryOp c key none fn retry fuel now).cache
              (getQueryKey key)).map (fun e => e.state.status) = some .error)
        ∧ ∃ j, (subscribeToQueryOp c key none fn retry fuel now).escaped
            = some (.error (errs j))) := by
  intro c key fn errs retry fuel now hfn habort hc
  obtain ⟨j, k, hjk⟩ :=
    executeWithRetry_fail fn errs hfn (retry.getD (.num 3)) false fuel 0
  refine ⟨?_, ?_, ⟨j, ?_⟩⟩ <;>
    simp [subscribeToQueryOp, getQueryEntry, hc, emptyEntry, initialState,
      fetchQuery, hjk, habort, errorState, cacheGet_cacheSet_self]

/-- Witness for the amended C3: concrete always-rejecting subscription
fetch; the fetch is triggered and its rejection escapes unhandled. -/
theorem c3_rejection_folded_but_escapes_witness :
    (subscribeToQueryOp ([] : Cache String) ["k"] none
        (fun _ => .error ⟨"Error", "boom"⟩) (some (.num 0)) 1 5).fetchTriggered
      = true
    ∧ (subscribeToQueryOp ([] : Cache String) ["k"] none
        (fun _ => .error ⟨"Error", "boom"⟩) (some (.num 0)) 1 5).escaped
      = some (.error ⟨"Error", "boom"⟩) := by
  have h := c3_rejection_folded_but_escapes [] ["k"]
      (fun _ => .error ⟨"Error", "boom"⟩) (fun _ => ⟨"Error", "boom"⟩)
      (some (.num 0)) 1 5 (fun _ => rfl) (fun _ => rfl) rfl
  obtain ⟨j, hj⟩ := h.2.2
  exact ⟨h.1, hj⟩

/-- Claim C4 counterexample: `fetchQuery` on a fresh key with an
always-rejecting query function puts the entry in error state; a
subsequent `setQueryData` forces status `'success'` and sets data but —
against the claim — leaves the previous error in place: the resulting
state has status `'success'` with a non-null error. -/
theorem c4_counterexample :
    (cacheGet (setQueryDataOp
        (fetchQueryOp ([] : Cache String) ["k"]
          (fun _ => .error ⟨"Error", "boom"⟩) (some (.num 0)) false 0 5).2
        ["k"] "x" 6).1 (getQueryKey ["k"])).map
          (fun e => (e.state.status, e.state.data, e.state.error))
      = some (.success, some "x", some ⟨"Error", "boom"⟩) :=
  rfl

/-- Claim C4, amended: the invariant (success ⇒ data defined and error
null; error ⇒ error defined) is preserved by `fetchQuery` from any
state satisfying it; but `setQueryData` writes only data, dataUpdatedAt
and status, leaving the error field at its previous value — so applied
to an entry currently in error state it yields a success state that
retains the old error instead of error null. -/
theorem c4_invariant_fetch_preserved_setQueryData_keeps_error :
    ∀ (st : QueryState String) (fn : Nat → Except JsError String)
      (retry : Option RetryPolicy) (ab : Bool) (fuel now : Nat) (d : String),
      (stateInvariant st →
        stateInvariant (fetchQuery st fn retry ab fuel now).state)
      ∧ ((setQueryDataState st d now).status = .success
        ∧ (setQueryDataState st d now).data = some d
        ∧ (setQueryDataState st d now).error = st.error) := by
  intro st fn retry ab fuel now d
  constructor
  · intro hinv
    unfold fetchQuery
    cases hexec : executeWithRetry fn (retry.getD (.num 3)) ab fuel 0 with
    | mk res k =>
      cases res with
      | ok v => simp [successState, stateInvariant]
      | error e =>
        by_cases habort : isAbortError e = true
        · simpa [habort, stateInvariant] using hinv
        · simp [habort, errorState, stateInvariant]
  · exact ⟨rfl, rfl, rfl⟩

/-- Witness for the amended C4: a successful fetch from the fresh state
satisfies the invariant, and `setQueryData` keeps the previous error
field verbatim. -/
theorem c4_invariant_witness :
    stateInvariant (fetchQuery (initialState String)
        (fun _ => .ok "v") none false 3 9).state
    ∧ (setQueryDataState (initialState String) "x" 6).error
        = (initialState String).error :=
  ⟨(c4_invariant_fetch_preserved_setQueryData_keeps_error
      (initialState String) (fun _ => .ok "v") none false 3 9 "x").1 (by decide),
   (c4_invariant_fetch_preserved_setQueryData_keeps_error
      (initialState String) (fun _ => .ok "v") none false 3 9 "x").2.2.2⟩

end NitroQuery
